import Mathlib

/-!
Verification of the SDF (Standard Data Format) binary decoder of the
`sdfascii` project (`sdfascii.py`) against its natural-language
specification.

The Python module is shallowly embedded below:

* a file on disk is a `List Nat` of byte values together with a read
  position (`PyFile`), with Python's `read`/`seek` semantics;
* Python exceptions and `sys.exit` calls are an explicit error type
  (`PyErr`) and all fallible operations return `Except PyErr _`;
* IEEE-754 fields (`struct.unpack` formats `>f` and `>d`) are decoded
  to exact rationals (`ℚ`); the non-finite bit patterns (NaN/Inf),
  whose numeric value has no rational counterpart, are mapped to `0`.
  No claim under verification depends on a non-finite float value;
* the two floating-point operations whose rounding/complex-promotion
  behaviour is not rationally representable — Python's `**` used for the
  channel correction factor, and the `np.sqrt(x)/np.sqrt(2)` step of the
  HP 35670A native-unit correction — are abstracted as parameters of a
  `PowModel`.  Every theorem below is universally quantified over that
  model, so the verified properties are independent of the abstracted
  float semantics.
-/

set_option autoImplicit false
set_option maxRecDepth 100000

/-- Python exception outcomes observable from `sdfascii.py`.  `sys.exit(msg)`
calls are `systemExit` with a structured message; the remaining constructors
are the builtin exceptions the module can raise. -/
inductive SysMsg where
  /-- sys.exit of the f-string starting `Invalid file identifier:`, carrying
  the two identifier bytes actually read. -/
  | invalidFileIdentifier (ident : List Nat)
  /-- sys.exit `Error processing SDF file; expected file header`. -/
  | expectedFileHeader
  /-- sys.exit `Error processing SDF file; expected measurement header`. -/
  | expectedMeasurementHeader
  /-- sys.exit `This should have been a data header record.` -/
  | shouldBeDataHdr
  /-- sys.exit `This should have been a vector header record.` -/
  | shouldBeVectorHdr
  /-- sys.exit `This should have been a channel header record.` -/
  | shouldBeChannelHdr
  /-- sys.exit `This should have been a scan struct record.` (used both for
  the scan-struct records and, verbatim, for the y-data record check). -/
  | shouldBeScanStruct
  /-- sys.exit `Bad record size in SDF_MEAS_HDR`. -/
  | badMeasRecordSize
  /-- sys.exit `Did not recognize SDF revision in file header.` -/
  | revisionFileHdr
  /-- sys.exit `Did not recognize SDF revision passed to meas hdr.` -/
  | revisionMeasHdr
  /-- sys.exit `Did not recognize SDF revision` (data header). -/
  | revisionDataHdr
  deriving DecidableEq, Repr

/-- The Python exceptions the embedded code can raise. -/
inductive PyErr where
  | systemExit (m : SysMsg)
  /-- Dictionary lookup miss (enumeration decode tables, missing dict key). -/
  | keyError
  /-- List index outside the valid (Python) range. -/
  | indexError
  /-- `struct.error`: buffer length does not match the format size. -/
  | structError
  /-- `ValueError` (invalid `datetime` fields, negative seek). -/
  | valueError
  /-- `UnboundLocalError`: a local variable referenced before assignment. -/
  | unboundLocal
  /-- `ZeroDivisionError` from float division by zero. -/
  | zeroDivision
  deriving DecidableEq, Repr

/-- Big-endian byte-list to unsigned natural. -/
def beNat (bs : List Nat) : Nat :=
  bs.foldl (fun a b => a * 256 + b) 0

/-- Two's-complement reinterpretation of an unsigned `bits`-wide value. -/
def toSigned (n : Nat) (bits : Nat) : Int :=
  if n < 2 ^ (bits - 1) then (n : Int) else (n : Int) - 2 ^ bits

/-- An integer power of two as an exact rational (kept free of typeclass
`zpow` so that concrete decodes evaluate by kernel reduction). -/
def ratPow2 (i : Int) : ℚ :=
  if 0 ≤ i then ((2 ^ i.toNat : Nat) : ℚ) else mkRat 1 (2 ^ (-i).toNat)

/-- Exact rational value of an IEEE-754 bit pattern with `ebits` exponent
bits and `mbits` mantissa bits.  Non-finite patterns (exponent all ones) are
mapped to `0`; no verified claim depends on their value. -/
def ieeeVal (ebits mbits bits : Nat) : ℚ :=
  let e := (bits / 2 ^ mbits) % 2 ^ ebits
  let m := bits % 2 ^ mbits
  let bias : Int := 2 ^ (ebits - 1) - 1
  let mag : ℚ :=
    if e = 0 then (m : ℚ) * ratPow2 (1 - bias - (mbits : Int))
    else if e = 2 ^ ebits - 1 then 0
    else ((2 ^ mbits + m : Nat) : ℚ) * ratPow2 ((e : Int) - bias - (mbits : Int))
  if (bits / 2 ^ (ebits + mbits)) % 2 = 1 then -mag else mag

/-- `struct.unpack` format `>f` value of a 32-bit pattern. -/
def ieeeF32 (bits : Nat) : ℚ := ieeeVal 8 23 bits

/-- `struct.unpack` format `>d` value of a 64-bit pattern. -/
def ieeeF64 (bits : Nat) : ℚ := ieeeVal 11 52 bits

/-- An open binary file: content bytes plus current read position. -/
structure PyFile where
  data : List Nat
  pos : Nat
  deriving DecidableEq, Repr

/-- `file.read(n)` for `n ≥ 0`: returns up to `n` bytes from the current
position (fewer at end of file) and advances the position by the number of
bytes returned. -/
def pyRead (f : PyFile) (n : Nat) : List Nat × PyFile :=
  let bs := (f.data.drop f.pos).take n
  (bs, ⟨f.data, f.pos + bs.length⟩)

/-- `file.read(n)` with a signed size, as called with a record size decoded
from the file: a negative argument makes Python read to end of file. -/
def pyReadSize (f : PyFile) (n : Int) : List Nat × PyFile :=
  if n < 0 then
    let bs := f.data.drop f.pos
    (bs, ⟨f.data, f.pos + bs.length⟩)
  else pyRead f n.toNat

/-- `file.seek(t)`: raises `ValueError` on a negative target (Python:
"negative seek value"), otherwise sets the position (seeking past the end is
allowed). -/
def pySeek (f : PyFile) (t : Int) : Except PyErr PyFile :=
  if t < 0 then .error .valueError else .ok ⟨f.data, t.toNat⟩

/-- Python slice `bs[a:b]` for the constant non-negative indices used inside
the record decoders. -/
def pySeg (bs : List Nat) (a b : Nat) : List Nat :=
  (bs.drop a).take (b - a)

/-- CPython's slice-bound adjustment for step 1: negative indices count from
the end, then the result is clamped into `[0, n]`. -/
def pyBound (i : Int) (n : Nat) : Nat :=
  if i < 0 then (i + n).toNat else min i.toNat n

/-- Python slice `l[a:b]` (step 1) with full CPython index semantics. -/
def pySliceList {α : Type} (l : List α) (a b : Int) : List α :=
  (l.drop (pyBound a l.length)).take (pyBound b l.length - pyBound a l.length)

/-- Python list subscript `l[i]`: negative indices in `[-len, -1]` resolve
from the end; anything outside `[-len, len)` raises `IndexError`. -/
def pyIndex {α : Type} (l : List α) (i : Int) : Except PyErr α :=
  if i < 0 then
    if i + l.length < 0 then .error .indexError
    else
      match l.get? (i + l.length).toNat with
      | some a => .ok a
      | none => .error .indexError
  else
    match l.get? i.toNat with
    | some a => .ok a
    | none => .error .indexError

/-- Access to a dict key that is only present for some revisions: a missing
key raises `KeyError`. -/
def getOpt {α : Type} : Option α → Except PyErr α
  | some a => .ok a
  | none => .error .keyError

/-- `_strip_nonprintable`: text up to (not including) the first NUL byte.
The lossy UTF-8 decode of the Python original is abstracted to a bytewise
character map; no claim inspects the content of these label strings. -/
def stripNonprintable (bs : List Nat) : String :=
  String.mk ((bs.takeWhile (fun b => b != 0)).map (fun b => Char.ofNat b))

/-- `struct.unpack` of one big-endian signed short (`>h`): `struct.error`
unless the buffer is exactly 2 bytes. -/
def unpackI16 (bs : List Nat) : Except PyErr Int :=
  if bs.length = 2 then .ok (toSigned (beNat bs) 16) else .error .structError

/-- `struct.unpack` of one big-endian signed long (`>l`). -/
def unpackI32 (bs : List Nat) : Except PyErr Int :=
  if bs.length = 4 then .ok (toSigned (beNat bs) 32) else .error .structError

/-- `struct.unpack` of one big-endian single-precision float (`>f`). -/
def unpackF32 (bs : List Nat) : Except PyErr ℚ :=
  if bs.length = 4 then .ok (ieeeF32 (beNat bs)) else .error .structError

/-- `struct.unpack` of one big-endian double-precision float (`>d`). -/
def unpackF64 (bs : List Nat) : Except PyErr ℚ :=
  if bs.length = 8 then .ok (ieeeF64 (beNat bs)) else .error .structError

/-- `struct.unpack` of two big-endian signed shorts (`>2h`). -/
def unpack2I16 (bs : List Nat) : Except PyErr (Int × Int) :=
  if bs.length = 4 then
    .ok (toSigned (beNat (bs.take 2)) 16, toSigned (beNat (bs.drop 2)) 16)
  else .error .structError

/-- `struct.unpack` of a fixed-width byte string (`>ks`) followed by the NUL
truncation `_strip_nonprintable` applies to it. -/
def unpackStr (k : Nat) (bs : List Nat) : Except PyErr String :=
  if bs.length = k then .ok (stripNonprintable bs) else .error .structError

/-- The 6-byte record prefix `>hl`: record type (short) and record size
(long). -/
def unpackTypeSize (bs : List Nat) : Except PyErr (Int × Int) :=
  if bs.length = 6 then
    .ok (toSigned (beNat (bs.take 2)) 16, toSigned (beNat (bs.drop 2)) 32)
  else .error .structError

/-- Coded-enumeration decode: Python dict subscript on a literal table,
raising `KeyError` when the code is absent. -/
def pyLookup {α : Type} (tbl : List (Int × α)) (code : Int) : Except PyErr α :=
  match tbl.lookup code with
  | some v => .ok v
  | none => .error .keyError

/-- Python `divmod` against the positive constant 100 (floor division). -/
def pyDivmod100 (i : Int) : Int × Int := (Int.ediv i 100, Int.emod i 100)

/-- Result of Python's `datetime(year, month, day, hour, minute)`. -/
structure PyDatetime where
  year : Int
  month : Int
  day : Int
  hour : Int
  minute : Int
  deriving DecidableEq, Repr

/-- Gregorian leap year, as used by `datetime`'s day-of-month validation. -/
def isLeapYear (y : Int) : Bool :=
  y % 4 == 0 && (y % 100 != 0 || y % 400 == 0)

/-- Number of days in a month, as validated by `datetime`. -/
def daysInMonth (y m : Int) : Int :=
  if m = 2 then (if isLeapYear y then 29 else 28)
  else if m = 4 ∨ m = 6 ∨ m = 9 ∨ m = 11 then 30
  else 31

/-- `datetime(y, mo, d, h, mi)`: `ValueError` when any field is out of
range. -/
def mkDatetime (y mo d h mi : Int) : Except PyErr PyDatetime :=
  if 1 ≤ y ∧ y ≤ 9999 ∧ 1 ≤ mo ∧ mo ≤ 12 ∧ 1 ≤ d ∧ d ≤ daysInMonth y mo
      ∧ 0 ≤ h ∧ h ≤ 23 ∧ 0 ≤ mi ∧ mi ≤ 59 then
    .ok ⟨y, mo, d, h, mi⟩
  else .error .valueError

/-- `application_decoder` of `_decode_sdf_file_hdr`. -/
def applicationTable : List (Int × String) :=
  [(-1, "HP VISTA"), (-2, "HP SINE"), (-3, "HP 35660A"),
   (-4, "HP 3562A, HP 3563A"), (-5, "HP 3588A"),
   (-6, "HP 3589A"), (-99, "Unknown"),
   (1, "HP 3566A, HP 3567A"), (2, "HP 35665A"),
   (3, "HP 3560A"), (4, "HP 89410A, HP 89440A"),
   (7, "HP 35635R"), (8, "HP 35654A-S1A"),
   (9, "HP 3569A"), (10, "HP 35670A"), (11, "HP 3587S")]

/-- `average_type_decoder` of `_decode_sdf_meas_hdr`. -/
def averageTypeTable : List (Int × String) :=
  [(0, "None"), (1, "RMS"), (2, "RMS Exponential"),
   (3, "Vector"), (4, "Vector Exponential"),
   (5, "Continuous Peak Hold"), (6, "Peak")]

/-- `meas_type_decoder` of `_decode_sdf_meas_hdr`. -/
def measTypeTable : List (Int × String) :=
  [(-99, "Unknown measurement"),
   (0, "Spectrum measurement"),
   (1, "Network measurement"),
   (2, "Swept measurement"),
   (3, "FFT measurement"),
   (4, "Orders measurement"),
   (5, "Octave measurement"),
   (6, "Capture measurement"),
   (7, "Correlation measurement"),
   (8, "Histogram measurement"),
   (9, "Swept network measurement"),
   (10, "FFT network measurement")]

/-- `real_time_decoder` of `_decode_sdf_meas_hdr`. -/
def realTimeTable : List (Int × String) :=
  [(0, "Not continuous"), (1, "Continuous")]

/-- `detection_decoder` of `_decode_sdf_meas_hdr`. -/
def detectionTable : List (Int × String) :=
  [(-99, "Unknown detection type"),
   (0, "Sample detection"),
   (1, "Positive peak detection"),
   (2, "Negative peak detection"),
   (3, "Rose-and-fell detection")]

/-- `domain_decoder` of `_decode_sdf_data_hdr`. -/
def domainTable : List (Int × String) :=
  [(-99, "Unknown"),
   (0, "Frequency domain"),
   (1, "Time domain"),
   (2, "Amplitude domain"),
   (3, "RPM"),
   (4, "Order"),
   (5, "Channel"),
   (6, "Octave")]

/-- `data_type_decoder` of `_decode_sdf_data_hdr` (all 76 entries). -/
def dataTypeTable : List (Int × String) :=
  [(-99, "Unknown"),
   (0, "Time"),
   (1, "Linear spectrum"),
   (2, "Auto-power spectrum"),
   (3, "Cross-power spectrum"),
   (4, "Frequency response"),
   (5, "Auto-correlation"),
   (6, "Cross-correlation"),
   (7, "Impulse response"),
   (8, "Ordinary coherence"),
   (9, "Partial coherence"),
   (10, "Multiple coherence"),
   (11, "Full octave"),
   (12, "Third octave"),
   (13, "Convolution"),
   (14, "Histogram"),
   (15, "Probability density function"),
   (16, "Cumulative density function,"),
   (17, "Power spectrum order tracking"),
   (18, "Composite power tracking"),
   (19, "Phase order tracking"),
   (20, "RPM spectral"),
   (21, "Order ratio"),
   (22, "Orbit"),
   (23, "HP 35650 series calibration"),
   (24, "Sine rms pwr data"),
   (25, "Sine variance data"),
   (26, "Sine range data"),
   (27, "Sine settle time data"),
   (28, "Sine integ time data"),
   (29, "Sine source data"),
   (30, "Sine overload data"),
   (31, "Sine linear data"),
   (32, "Synthesis"),
   (33, "Curve fit weighting function"),
   (34, "Frequency corrections (for capture)"),
   (35, "All pass time data"),
   (36, "Norm reference data"),
   (37, "tachometer data"),
   (38, "limit line data"),
   (39, "twelfth octave data"),
   (40, "S11 data"),
   (41, "S21 data"),
   (42, "S12 data"),
   (43, "S22 data"),
   (44, "PSD data"),
   (45, "decimated time data"),
   (46, "overload data"),
   (47, "compressed time data"),
   (48, "external trigger data"),
   (49, "pressure data"),
   (50, "intensity data"),
   (51, "PI index data"),
   (52, "velocity data"),
   (53, "PV index data"),
   (54, "sound power data"),
   (55, "field indicator data"),
   (56, "partial power data"),
   (57, "Ln 1 data"),
   (58, "Ln 10 data"),
   (59, "Ln 50 data"),
   (60, "Ln 90 data"),
   (61, "Ln 99 data"),
   (62, "Ln user data"),
   (63, "T20 data"),
   (64, "T30 data"),
   (65, "RT60 data"),
   (66, "average count data"),
   (68, " IQ measured time"),
   (69, " IQ measured spectrum"),
   (70, " IQ reference time"),
   (71, " IQ reference spectrum"),
   (72, " IQ error magnitude"),
   (73, " IQ error phase"),
   (74, " IQ error vector time"),
   (75, " IQ error vector spectrum"),
   (76, " symbol table data")]

/-- `x_resolution_type_decoder` of `_decode_sdf_data_hdr`. -/
def xResolutionTypeTable : List (Int × String) :=
  [(0, "Linear"), (1, "Logarithmic"),
   (2, "Arbitrary, one per file"),
   (3, "Arbitrary, one per data type"),
   (4, "Arbitrary, one per trace")]

/-- `x_data_type_decoder` and `y_data_type_decoder` of
`_decode_sdf_data_hdr` (identical tables). -/
def xyDataTypeTable : List (Int × String) :=
  [(1, "short"), (2, "long"), (3, "float"), (4, "double")]

/-- `window_type_decoder` of `_decode_sdf_window`. -/
def windowTypeTable : List (Int × String) :=
  [(0, "Window not applied"),
   (1, "Hanning"),
   (2, "Flat Top"),
   (3, "Uniform"),
   (4, "Force"),
   (5, "Response"),
   (6, "user-defined"),
   (7, "Hamming"),
   (8, "P301"),
   (9, "P310"),
   (10, "Kaiser-Bessel"),
   (11, "Harris"),
   (12, "Blackman"),
   (13, "Resolution filter"),
   (14, "Correlation Lead Lag"),
   (15, "Correlation Lag"),
   (16, "Gated"),
   (17, "P400")]

/-- `correction_mode_decoder` of `_decode_sdf_window`. -/
def correctionModeTable : List (Int × String) :=
  [(0, "Correction not applied"),
   (1, "Narrow band correction applied"),
   (2, "Wide band correction applied")]

/-- `weight_decoder` of `_decode_sdf_channel_hdr`. -/
def weightTable : List (Int × String) :=
  [(0, "No weighting"), (1, "A-weighting"),
   (2, "B-weighting"), (3, "C-weighting")]

/-- `direction_decoder` of `_decode_sdf_channel_hdr`. -/
def directionTable : List (Int × String) :=
  [(-9, "-TZ"), (-8, "-TY"), (-7, "-TX"), (-3, "-Z"),
   (-2, "-Y"), (-1, "X"), (0, "No direction specified"),
   (1, "X"), (2, "Y"), (3, "Z"), (4, "Radial"),
   (5, "Tangential, theta angle"),
   (6, "Tangential, phi angle"), (7, "TX"),
   (8, "TY"), (9, "TZ")]

/-- `coupling_decoder` of `_decode_sdf_channel_hdr`. -/
def couplingTable : List (Int × String) :=
  [(0, "DC"), (1, "AC")]

/-- `channel_attribute_decoder` of `_decode_sdf_channel_hdr`. -/
def channelAttributeTable : List (Int × String) :=
  [(-99, "Unknown attribute"), (0, "No attribute"),
   (1, "Tach attribute"), (2, "Reference attribute"),
   (3, "Tach and reference attribute"),
   (4, "Clockwise attribute")]

/-- `scan_type_decoder` of `_decode_sdf_scan_struct`. -/
def scanTypeTable : List (Int × String) :=
  [(0, "Depth"), (1, "Scan")]

/-- `scan_var_type_decoder` of `_decode_sdf_scan_struct`. -/
def scanVarTypeTable : List (Int × String) :=
  [(1, "Short"), (2, "Long"), (3, "Float"), (4, "Double")]

/-- `SDFUnit`: the 22-byte physical-unit sub-structure (`>10sf8b`). -/
structure SDFUnit where
  label : String
  factor : ℚ
  mass : Int
  length : Int
  time : Int
  current : Int
  temperature : Int
  luminal_intensity : Int
  mole : Int
  plane_angle : Int
  deriving DecidableEq, Repr

/-- `SDFWindow`: the 24-byte window sub-structure (`>2h5f`); the two coded
enumerations are replaced by their decoded labels, as the Python decoder
does in place. -/
structure SDFWindow where
  window_type : String
  correction_mode : String
  bw : ℚ
  time_const : ℚ
  trunc : ℚ
  wide_band_corr : ℚ
  narrow_band_corr : ℚ
  deriving DecidableEq, Repr

/-- The file header dict produced by `_decode_sdf_file_hdr` (all fields are
set before the revision check; no revision-specific fields are decoded). -/
structure SDFFileHdr where
  record_size : Int
  sdf_revision : Int
  application : String
  measurement_start_datetime : PyDatetime
  application_version : String
  num_data_hdr_records : Int
  num_vector_hdr_records : Int
  num_channel_hdr_records : Int
  num_unique_records : Int
  num_scan_struct_records : Int
  num_xdata_records : Int
  offset_data_hdr_record : Int
  offset_vector_record : Int
  offset_channel_record : Int
  offset_unique_record : Int
  offset_scan_struct_record : Int
  offset_xdata_record : Int
  offset_ydata_record : Int
  deriving DecidableEq, Repr

/-- Fields of the measurement header dict that `_decode_sdf_meas_hdr` sets
before the revision dispatch. -/
structure SDFMeasHdrBase where
  record_size : Int
  offset_unique_record : Int
  block_size : Int
  zoom_mode_on : Bool
  average_type : String
  average_num : Int
  pct_overlap : ℚ
  meas_title : String
  video_bw : ℚ
  center_freq : ℚ
  span_freq : ℚ
  sweep_freq : ℚ
  meas_type : String
  real_time : String
  detection : String
  sweep_time : ℚ
  deriving DecidableEq, Repr

/-- The measurement header dict: base fields plus the keys only revision 2
adds (`none` models a missing dict key). -/
structure SDFMeasHdr where
  base : SDFMeasHdrBase
  start_freq_index : Option Int
  stop_freq_index : Option Int
  deriving DecidableEq, Repr

/-- Fields of the data header dict that `_decode_sdf_data_hdr` sets before
the revision dispatch. -/
structure SDFDataHdrBase where
  record_size : Int
  offset_unique_record : Int
  data_title : String
  domain : String
  data_type : String
  x_resolution_type : String
  x_data_type : String
  x_per_point : Int
  y_data_type : String
  y_per_point : Int
  y_is_complex : Bool
  y_is_normalized : Bool
  y_is_power_data : Bool
  y_is_valid : Bool
  first_vector_record_num : Int
  total_rows : Int
  total_cols : Int
  xunit : SDFUnit
  y_unit_valid : Bool
  yunit : SDFUnit
  deriving DecidableEq, Repr

/-- The data header dict: base fields plus the revision-dependent keys
(`none` models a missing dict key: revision 1 sets only the abscissa pair,
revision 2 sets all six). -/
structure SDFDataHdr where
  base : SDFDataHdrBase
  num_points : Option Int
  last_valid_index : Option Int
  abscissa_first_x : Option ℚ
  abscissa_delta_x : Option ℚ
  scan_data : Option Bool
  window_applied : Option Bool
  deriving DecidableEq, Repr

/-- The vector header dict of `_decode_sdf_vector_hdr`: a (response,
exciter) pair of channel indices and the paired power-of-48 codes. -/
structure SDFVectorHdr where
  record_size : Int
  offset_unique_record : Int
  channel_record : Int × Int
  channel_power_48x : Int × Int
  deriving DecidableEq, Repr

/-- The channel header dict of `_decode_sdf_channel_hdr`. -/
structure SDFChannelHdr where
  record_size : Int
  offset_unique_record : Int
  channel_label : String
  module_id : String
  serial_number : String
  window : SDFWindow
  weight : String
  delay : ℚ
  range : ℚ
  direction : String
  point_num : Int
  coupling : String
  overloaded : Bool
  int_label : String
  eng_unit : SDFUnit
  int_2_eng_unit : ℚ
  input_impedance : ℚ
  channel_attribute : String
  alias_protected : Bool
  digital_channel : Bool
  channel_scale : ℚ
  channel_offset : ℚ
  gate_begin : ℚ
  gate_end : ℚ
  user_delay : ℚ
  deriving DecidableEq, Repr

/-- The scan structure dict of `_decode_sdf_scan_struct`. -/
structure SDFScanStruct where
  record_size : Int
  num_of_scans : Int
  last_scan_index : Int
  scan_type : String
  scan_var_type : String
  scan_unit : SDFUnit
  deriving DecidableEq, Repr

/-- The assembled header graph `sdf_hdr` returned by `read_sdf_file`. -/
structure SDFHdr where
  valid_file_identifier : Bool
  file_hdr : SDFFileHdr
  meas_hdr : SDFMeasHdr
  data_hdr : List SDFDataHdr
  vector_hdr : List SDFVectorHdr
  channel_hdr : List SDFChannelHdr
  scan_struct : Option SDFScanStruct
  deriving DecidableEq, Repr

/-- `_decode_sdf_unit`: decode the 22-byte unit sub-structure. -/
def decodeSDFUnit (bd : List Nat) : Except PyErr SDFUnit :=
  if bd.length = 22 then
    .ok { label := stripNonprintable (bd.take 10)
          factor := ieeeF32 (beNat (pySeg bd 10 14))
          mass := toSigned (beNat (pySeg bd 14 15)) 8
          length := toSigned (beNat (pySeg bd 15 16)) 8
          time := toSigned (beNat (pySeg bd 16 17)) 8
          current := toSigned (beNat (pySeg bd 17 18)) 8
          temperature := toSigned (beNat (pySeg bd 18 19)) 8
          luminal_intensity := toSigned (beNat (pySeg bd 19 20)) 8
          mole := toSigned (beNat (pySeg bd 20 21)) 8
          plane_angle := toSigned (beNat (pySeg bd 21 22)) 8 }
  else .error .structError

/-- `_decode_sdf_window`: decode the 24-byte window sub-structure and map
the two coded enumerations through their tables. -/
def decodeSDFWindow (bd : List Nat) : Except PyErr SDFWindow :=
  if bd.length = 24 then
    Except.bind (pyLookup windowTypeTable (toSigned (beNat (pySeg bd 0 2)) 16)) (fun wt =>
    Except.bind (pyLookup correctionModeTable (toSigned (beNat (pySeg bd 2 4)) 16)) (fun cm =>
    .ok { window_type := wt
          correction_mode := cm
          bw := ieeeF32 (beNat (pySeg bd 4 8))
          time_const := ieeeF32 (beNat (pySeg bd 8 12))
          trunc := ieeeF32 (beNat (pySeg bd 12 16))
          wide_band_corr := ieeeF32 (beNat (pySeg bd 16 20))
          narrow_band_corr := ieeeF32 (beNat (pySeg bd 20 24)) }))
  else .error .structError

/-- Base-field part of `_decode_sdf_file_hdr` (everything the Python code
assigns before its revision check), in the source's evaluation order. -/
def decodeFileHdrBase (record_size : Int) (bd : List Nat) : Except PyErr SDFFileHdr := do
  let sdf_revision ← unpackI16 (pySeg bd 6 8)
  let appCode ← unpackI16 (pySeg bd 8 10)
  let application ← pyLookup applicationTable appCode
  let msrYear ← unpackI16 (pySeg bd 10 12)
  let msrMonthDay ← unpackI16 (pySeg bd 12 14)
  let msrHourMin ← unpackI16 (pySeg bd 14 16)
  let md := pyDivmod100 msrMonthDay
  let hs := pyDivmod100 msrHourMin
  let dt ← mkDatetime msrYear md.1 md.2 hs.1 hs.2
  let application_version ← unpackStr 8 (pySeg bd 16 24)
  let n1 ← unpackI16 (pySeg bd 24 26)
  let n2 ← unpackI16 (pySeg bd 26 28)
  let n3 ← unpackI16 (pySeg bd 28 30)
  let n4 ← unpackI16 (pySeg bd 30 32)
  let n5 ← unpackI16 (pySeg bd 32 34)
  let n6 ← unpackI16 (pySeg bd 34 36)
  let o1 ← unpackI32 (pySeg bd 36 40)
  let o2 ← unpackI32 (pySeg bd 40 44)
  let o3 ← unpackI32 (pySeg bd 44 48)
  let o4 ← unpackI32 (pySeg bd 48 52)
  let o5 ← unpackI32 (pySeg bd 52 56)
  let o6 ← unpackI32 (pySeg bd 56 60)
  let o7 ← unpackI32 (pySeg bd 60 64)
  .ok { record_size := record_size
        sdf_revision := sdf_revision
        application := application
        measurement_start_datetime := dt
        application_version := application_version
        num_data_hdr_records := n1
        num_vector_hdr_records := n2
        num_channel_hdr_records := n3
        num_unique_records := n4
        num_scan_struct_records := n5
        num_xdata_records := n6
        offset_data_hdr_record := o1
        offset_vector_record := o2
        offset_channel_record := o3
        offset_unique_record := o4
        offset_scan_struct_record := o5
        offset_xdata_record := o6
        offset_ydata_record := o7 }

/-- `_decode_sdf_file_hdr`: base fields, then the revision check.  Revisions
1, 2 and 3 all return the same base field set (the revision-3 trailing
fields are not decoded); any other revision is a fatal `sys.exit`. -/
def decodeSDFFileHdr (record_size : Int) (bd : List Nat) : Except PyErr SDFFileHdr :=
  Except.bind (decodeFileHdrBase record_size bd) (fun h =>
    if h.sdf_revision = 1 ∨ h.sdf_revision = 2 ∨ h.sdf_revision = 3 then .ok h
    else .error (.systemExit .revisionFileHdr))

/-- Base-field part of `_decode_sdf_meas_hdr` (everything before the
revision dispatch), in the source's evaluation order, including the
record-size cross-check against bytes 2:6. -/
def decodeMeasHdrBase (record_size : Int) (bd : List Nat) : Except PyErr SDFMeasHdrBase := do
  let rsz ← unpackI32 (pySeg bd 2 6)
  if record_size ≠ rsz then .error (.systemExit .badMeasRecordSize)
  else do
    let offset_unique_record ← unpackI32 (pySeg bd 6 10)
    let block_size ← unpackI32 (pySeg bd 18 22)
    let zoomCode ← unpackI16 (pySeg bd 22 24)
    let avgCode ← unpackI16 (pySeg bd 28 30)
    let average_type ← pyLookup averageTypeTable avgCode
    let average_num ← unpackI32 (pySeg bd 30 34)
    let pct_overlap ← unpackF32 (pySeg bd 34 38)
    let meas_title := stripNonprintable (pySeg bd 38 98)
    let video_bw ← unpackF32 (pySeg bd 98 102)
    let center_freq ← unpackF64 (pySeg bd 102 110)
    let span_freq ← unpackF64 (pySeg bd 110 118)
    let sweep_freq ← unpackF64 (pySeg bd 118 126)
    let mtCode ← unpackI16 (pySeg bd 126 128)
    let meas_type ← pyLookup measTypeTable mtCode
    let rtCode ← unpackI16 (pySeg bd 128 130)
    let real_time ← pyLookup realTimeTable rtCode
    let detCode ← unpackI16 (pySeg bd 130 132)
    let detection ← pyLookup detectionTable detCode
    let sweep_time ← unpackF64 (pySeg bd 132 140)
    .ok { record_size := record_size
          offset_unique_record := offset_unique_record
          block_size := block_size
          zoom_mode_on := zoomCode != 0
          average_type := average_type
          average_num := average_num
          pct_overlap := pct_overlap
          meas_title := meas_title
          video_bw := video_bw
          center_freq := center_freq
          span_freq := span_freq
          sweep_freq := sweep_freq
          meas_type := meas_type
          real_time := real_time
          detection := detection
          sweep_time := sweep_time }

/-- Revision dispatch of `_decode_sdf_meas_hdr`: revision 2 additionally
decodes `start_freq_index`/`stop_freq_index` from bytes 24:28; revisions 1
and 3 add nothing; any other revision is a fatal `sys.exit`. -/
def measRevDispatch (rev : Int) (bd : List Nat) (b : SDFMeasHdrBase) : Except PyErr SDFMeasHdr :=
  if rev = 1 then .ok ⟨b, none, none⟩
  else if rev = 2 then
    Except.bind (unpack2I16 (pySeg bd 24 28)) (fun se =>
      .ok ⟨b, some se.1, some se.2⟩)
  else if rev = 3 then .ok ⟨b, none, none⟩
  else .error (.systemExit .revisionMeasHdr)

/-- `_decode_sdf_meas_hdr`. -/
def decodeSDFMeasHdr (record_size : Int) (rev : Int) (bd : List Nat) : Except PyErr SDFMeasHdr :=
  Except.bind (decodeMeasHdrBase record_size bd) (measRevDispatch rev bd)

/-- Base-field part of `_decode_sdf_data_hdr` (everything before the
revision dispatch), in the source's evaluation order. -/
def decodeDataHdrBase (record_size : Int) (bd : List Nat) : Except PyErr SDFDataHdrBase := do
  let offset_unique_record ← unpackI32 (pySeg bd 6 10)
  let data_title ← unpackStr 16 (pySeg bd 10 26)
  let domCode ← unpackI16 (pySeg bd 26 28)
  let domain ← pyLookup domainTable domCode
  let dtCode ← unpackI16 (pySeg bd 28 30)
  let data_type ← pyLookup dataTypeTable dtCode
  let xrCode ← unpackI16 (pySeg bd 42 44)
  let x_resolution_type ← pyLookup xResolutionTypeTable xrCode
  let xdCode ← unpackI16 (pySeg bd 44 46)
  let x_data_type ← pyLookup xyDataTypeTable xdCode
  let x_per_point ← unpackI16 (pySeg bd 46 48)
  let ydCode ← unpackI16 (pySeg bd 48 50)
  let y_data_type ← pyLookup xyDataTypeTable ydCode
  let y_per_point ← unpackI16 (pySeg bd 50 52)
  let ycCode ← unpackI16 (pySeg bd 52 54)
  let ynCode ← unpackI16 (pySeg bd 54 56)
  let ypCode ← unpackI16 (pySeg bd 56 58)
  let yvCode ← unpackI16 (pySeg bd 58 60)
  let first_vector_record_num ← unpackI32 (pySeg bd 60 64)
  let total_rows ← unpackI16 (pySeg bd 64 66)
  let total_cols ← unpackI16 (pySeg bd 66 68)
  let xunit ← decodeSDFUnit (pySeg bd 68 90)
  let yuCode ← unpackI16 (pySeg bd 90 92)
  let yunit ← decodeSDFUnit (pySeg bd 92 114)
  .ok { record_size := record_size
        offset_unique_record := offset_unique_record
        data_title := data_title
        domain := domain
        data_type := data_type
        x_resolution_type := x_resolution_type
        x_data_type := x_data_type
        x_per_point := x_per_point
        y_data_type := y_data_type
        y_per_point := y_per_point
        y_is_complex := ycCode != 0
        y_is_normalized := ynCode != 0
        y_is_power_data := ypCode != 0
        y_is_valid := yvCode != 0
        first_vector_record_num := first_vector_record_num
        total_rows := total_rows
        total_cols := total_cols
        xunit := xunit
        y_unit_valid := yuCode != 0
        yunit := yunit }

/-- Revision dispatch of `_decode_sdf_data_hdr`.  Revision 1 adds the
abscissa pair (bytes 34:42, floats); revision 2 adds sample count and
last-valid-index (bytes 30:34), the abscissa pair (bytes 114:130, doubles)
and the two flags; revision 3 falls through its branch without assigning
`temp_data_hdr`, so the trailing `return` raises `UnboundLocalError`; any
other revision is a fatal `sys.exit`. -/
def dataRevDispatch (rev : Int) (bd : List Nat) (b : SDFDataHdrBase) : Except PyErr SDFDataHdr :=
  if rev = 1 then
    Except.bind (unpackF32 (pySeg bd 34 38)) (fun ax =>
    Except.bind (unpackF32 (pySeg bd 38 42)) (fun dx =>
      .ok ⟨b, none, none, some ax, some dx, none, none⟩))
  else if rev = 2 then
    Except.bind (unpack2I16 (pySeg bd 30 34)) (fun nl =>
    Except.bind (unpackF64 (pySeg bd 114 122)) (fun ax =>
    Except.bind (unpackF64 (pySeg bd 122 130)) (fun dx =>
    Except.bind (unpackI16 (pySeg bd 130 132)) (fun sd =>
    Except.bind (unpackI16 (pySeg bd 132 134)) (fun wa =>
      .ok ⟨b, some nl.1, some nl.2, some ax, some dx, some (sd != 0), some (wa != 0)⟩)))))
  else if rev = 3 then .error .unboundLocal
  else .error (.systemExit .revisionDataHdr)

/-- `_decode_sdf_data_hdr`. -/
def decodeSDFDataHdr (record_size : Int) (rev : Int) (bd : List Nat) : Except PyErr SDFDataHdr :=
  Except.bind (decodeDataHdrBase record_size bd) (dataRevDispatch rev bd)

/-- `_decode_sdf_vector_hdr`: the `sdf_revision` argument is accepted but
never used by the Python source. -/
def decodeSDFVectorHdr (record_size : Int) (sdf_revision : Int) (bd : List Nat) : Except PyErr SDFVectorHdr := do
  let offset_unique_record ← unpackI32 (pySeg bd 6 10)
  let cr ← unpack2I16 (pySeg bd 10 14)
  let cp ← unpack2I16 (pySeg bd 14 18)
  .ok { record_size := record_size
        offset_unique_record := offset_unique_record
        channel_record := cr
        channel_power_48x := cp }

/-- `_decode_sdf_channel_hdr`: the `sdf_revision` argument is accepted but
never used by the Python source. -/
def decodeSDFChannelHdr (record_size : Int) (sdf_revision : Int) (bd : List Nat) : Except PyErr SDFChannelHdr := do
  let offset_unique_record ← unpackI32 (pySeg bd 6 10)
  let channel_label ← unpackStr 30 (pySeg bd 10 40)
  let module_id ← unpackStr 12 (pySeg bd 40 52)
  let serial_number ← unpackStr 12 (pySeg bd 52 64)
  let window ← decodeSDFWindow (pySeg bd 64 88)
  let wCode ← unpackI16 (pySeg bd 88 90)
  let weight ← pyLookup weightTable wCode
  let delay ← unpackF32 (pySeg bd 90 94)
  let range ← unpackF32 (pySeg bd 94 98)
  let dirCode ← unpackI16 (pySeg bd 98 100)
  let direction ← pyLookup directionTable dirCode
  let point_num ← unpackI16 (pySeg bd 100 102)
  let cplCode ← unpackI16 (pySeg bd 102 104)
  let coupling ← pyLookup couplingTable cplCode
  let ovCode ← unpackI16 (pySeg bd 104 106)
  let int_label ← unpackStr 10 (pySeg bd 106 116)
  let eng_unit ← decodeSDFUnit (pySeg bd 116 138)
  let int_2_eng_unit ← unpackF32 (pySeg bd 138 142)
  let input_impedance ← unpackF32 (pySeg bd 142 146)
  let caCode ← unpackI16 (pySeg bd 146 148)
  let channel_attribute ← pyLookup channelAttributeTable caCode
  let apCode ← unpackI16 (pySeg bd 148 150)
  let dcCode ← unpackI16 (pySeg bd 150 152)
  let channel_scale ← unpackF64 (pySeg bd 152 160)
  let channel_offset ← unpackF64 (pySeg bd 160 168)
  let gate_begin ← unpackF64 (pySeg bd 168 176)
  let gate_end ← unpackF64 (pySeg bd 176 184)
  let user_delay ← unpackF64 (pySeg bd 184 192)
  .ok { record_size := record_size
        offset_unique_record := offset_unique_record
        channel_label := channel_label
        module_id := module_id
        serial_number := serial_number
        window := window
        weight := weight
        delay := delay
        range := range
        direction := direction
        point_num := point_num
        coupling := coupling
        overloaded := ovCode != 0
        int_label := int_label
        eng_unit := eng_unit
        int_2_eng_unit := int_2_eng_unit
        input_impedance := input_impedance
        channel_attribute := channel_attribute
        alias_protected := apCode != 0
        digital_channel := dcCode != 0
        channel_scale := channel_scale
        channel_offset := channel_offset
        gate_begin := gate_begin
        gate_end := gate_end
        user_delay := user_delay }

/-- `_decode_sdf_scan_struct`: the `sdf_revision` argument is accepted but
never used by the Python source. -/
def decodeSDFScanStruct (record_size : Int) (sdf_revision : Int) (bd : List Nat) : Except PyErr SDFScanStruct := do
  let num_of_scans ← unpackI16 (pySeg bd 6 8)
  let last_scan_index ← unpackI16 (pySeg bd 8 10)
  let stCode ← unpackI16 (pySeg bd 10 12)
  let scan_type ← pyLookup scanTypeTable stCode
  let svCode ← unpackI16 (pySeg bd 12 14)
  let scan_var_type ← pyLookup scanVarTypeTable svCode
  let scan_unit ← decodeSDFUnit (pySeg bd 14 36)
  .ok { record_size := record_size
        num_of_scans := num_of_scans
        last_scan_index := last_scan_index
        scan_type := scan_type
        scan_var_type := scan_var_type
        scan_unit := scan_unit }

/-- One y-axis sample: real and imaginary part.  Real (`>f`) data has a zero
imaginary part. -/
abbrev Sample := ℚ × ℚ

/-- Interpretation of the two floating-point operations of the calibration
pipeline that exact rationals cannot represent: `pow` interprets Python's
float `**` (used as `(window_corr / eu_corr) ** (channel_power_48x / 48)`),
and `hpStep` interprets the per-sample map `np.sqrt(s) / np.sqrt(2)` of the
HP 35670A native-unit correction.  All theorems hold for every
interpretation. -/
structure PowModel where
  pow : ℚ → ℚ → ℚ
  hpStep : Sample → Sample

/-- Decode one raw sample: 16 bytes as two big-endian doubles (`>c16`) when
complex, else 4 bytes as one big-endian float (`>f`). -/
def decodeSample (cplx : Bool) (bs : List Nat) : Sample :=
  if cplx then (ieeeF64 (beNat (bs.take 8)), ieeeF64 (beNat (bs.drop 8)))
  else (ieeeF32 (beNat bs), 0)

/-- Size in bytes of one y-data element: 16 for `>c16` complex samples,
4 for `>f` float samples. -/
def itemSize (cplx : Bool) : Nat := if cplx then 16 else 4

/-- `np.fromfile(file, dtype, count)`: reads `count` items of the given
element size from the current position, silently returning however many
complete items remain when fewer are available (a negative count reads to
end of file). -/
def npFromfile (f : PyFile) (cplx : Bool) (count : Int) : List Sample × PyFile :=
  let avail := (f.data.length - f.pos) / itemSize cplx
  let k := if count < 0 then avail else min count.toNat avail
  ((List.range k).map (fun i =>
      decodeSample cplx
        (pySeg f.data (f.pos + i * itemSize cplx) (f.pos + i * itemSize cplx + itemSize cplx))),
   ⟨f.data, f.pos + k * itemSize cplx⟩)

/-- `trace_corr_factor * sdf_data`: scalar times (complex) sample. -/
def scaleSample (t : ℚ) (s : Sample) : Sample := (t * s.1, t * s.2)

/-- The instrument-specific native-unit correction step: the per-sample
transform is applied exactly when the decoded application string equals
`HP 35670A`. -/
def applyHPCorrection (app : String) (hp : Sample → Sample) (l : List Sample) : List Sample :=
  if app = "HP 35670A" then l.map hp else l

/-- Combined correction factor of one channel role (`read_sdf_file` lines
911-958, identical for response and exciter): channel index `-1` yields
`1.0` with no lookup; otherwise the channel is looked up by Python list
subscript, the window correction is the channel window's narrow-band factor
exactly when the domain is `Frequency domain` or `Channel` (else `1.0`),
and the factor is `(window_corr / int_2_eng_unit) ** (pwr / 48)`.  Float
division by a zero `int_2_eng_unit` raises `ZeroDivisionError`. -/
def channelCorrFactor (PM : PowModel) (domain : String) (channels : List SDFChannelHdr)
    (chId : Int) (pwr : Int) : Except PyErr ℚ :=
  if chId = -1 then .ok 1
  else
    Except.bind (pyIndex channels chId) (fun ch =>
      let w : ℚ :=
        if domain = "Frequency domain" ∨ domain = "Channel" then
          ch.window.narrow_band_corr
        else 1
      if ch.int_2_eng_unit = 0 then .error .zeroDivision
      else .ok (PM.pow (w / ch.int_2_eng_unit) ((pwr : ℚ) / 48)))

/-- `trace_corr_factor`: the response-channel factor times the
exciter-channel factor, computed in that order. -/
def traceCorrFactor (PM : PowModel) (domain : String) (channels : List SDFChannelHdr)
    (vh : SDFVectorHdr) : Except PyErr ℚ :=
  Except.bind (channelCorrFactor PM domain channels vh.channel_record.1 vh.channel_power_48x.1) (fun r =>
  Except.bind (channelCorrFactor PM domain channels vh.channel_record.2 vh.channel_power_48x.2) (fun e =>
  .ok (r * e)))

/-- The y-data branch of `read_sdf_file` up to (and including) the HP 35670A
correction: seek to the y-data offset, check the record type is 17, resolve
`data_hdr[0]` and its vector header, compute the trace correction, read
`num_points` samples with `np.fromfile`, scale every sample, and apply the
instrument correction. -/
def calibratedYVector (PM : PowModel) (g : SDFHdr) (f : PyFile) : Except PyErr (List Sample) :=
  Except.bind (pySeek f g.file_hdr.offset_ydata_record) (fun f1 =>
  Except.bind (unpackTypeSize (pyRead f1 6).1) (fun ts =>
  if ts.1 = 17 then
    Except.bind (pyIndex g.data_hdr 0) (fun dh =>
    Except.bind (pyIndex g.vector_hdr dh.base.first_vector_record_num) (fun vh =>
    Except.bind (traceCorrFactor PM dh.base.domain g.channel_hdr vh) (fun trace =>
    Except.bind (getOpt dh.num_points) (fun n =>
      .ok (applyHPCorrection g.file_hdr.application PM.hpStep
        ((npFromfile (pyRead f1 6).2 dh.base.y_is_complex n).1.map (scaleSample trace)))))))
  else .error (.systemExit .shouldBeScanStruct)))

/-- The full y-data branch: the calibrated vector sliced (Python slice
semantics) to `[start_freq_index : stop_freq_index + 1]`, both indices taken
from the measurement header dict (`KeyError` when absent). -/
def extractYData (PM : PowModel) (g : SDFHdr) (f : PyFile) : Except PyErr (List Sample) :=
  Except.bind (calibratedYVector PM g f) (fun d2 =>
  Except.bind (getOpt g.meas_hdr.start_freq_index) (fun s =>
  Except.bind (getOpt g.meas_hdr.stop_freq_index) (fun e =>
  .ok (pySliceList d2 s (e + 1)))))

/-- The scan loops of `read_sdf_file` (data header, vector header, channel
header and scan-struct records follow the same shape): seek to
`offset + index * stride` where the stride is the previously read record's
declared size (0 on the first iteration), read and check the 6-byte type
prefix, seek back, read the whole record, decode it, recurse. -/
def scanRecords {α : Type} (dec : Int → List Nat → Except PyErr α) (etype : Int)
    (emsg : SysMsg) (off : Int) :
    Nat → Nat → Int → PyFile → Except PyErr (List α × PyFile)
  | 0, _, _, f => .ok ([], f)
  | Nat.succ k, i, stride, f =>
    Except.bind (pySeek f (off + (i : Int) * stride)) (fun f1 =>
    Except.bind (unpackTypeSize (pyRead f1 6).1) (fun ts =>
    if ts.1 = etype then
      Except.bind (pySeek (pyRead f1 6).2 (((pyRead f1 6).2.pos : Int) - 6)) (fun f2 =>
      Except.bind (dec ts.2 (pyReadSize f2 ts.2).1) (fun h =>
      Except.bind (scanRecords dec etype emsg off k (i + 1) ts.2 (pyReadSize f2 ts.2).2) (fun rest =>
      .ok (h :: rest.1, rest.2))))
    else .error (.systemExit emsg)))

/-- The header-assembly part of `read_sdf_file`: identifier check, file
header, measurement header, then the four record-scan loops, returning the
assembled header graph and the file handle (the scan-struct loop keeps only
the last record decoded, and a zero or negative count runs no
iterations). -/
def readHeaders (data : List Nat) : Except PyErr (SDFHdr × PyFile) :=
  let f0 : PyFile := ⟨data, 0⟩
  if (pyRead f0 2).1 = [66, 0] then
    let f1 := (pyRead f0 2).2
    Except.bind (unpackTypeSize (pyRead f1 6).1) (fun ts =>
    if ts.1 = 10 then
      Except.bind (pySeek (pyRead f1 6).2 (((pyRead f1 6).2.pos : Int) - 6)) (fun f3 =>
      Except.bind (decodeSDFFileHdr ts.2 (pyReadSize f3 ts.2).1) (fun fh =>
      let f4 := (pyReadSize f3 ts.2).2
      Except.bind (unpackTypeSize (pyRead f4 6).1) (fun ts2 =>
      if ts2.1 = 11 then
        Except.bind (pySeek (pyRead f4 6).2 (((pyRead f4 6).2.pos : Int) - 6)) (fun f6 =>
        Except.bind (decodeSDFMeasHdr ts2.2 fh.sdf_revision (pyReadSize f6 ts2.2).1) (fun mh =>
        Except.bind (scanRecords (fun rs bd => decodeSDFDataHdr rs fh.sdf_revision bd) 12
            .shouldBeDataHdr fh.offset_data_hdr_record fh.num_data_hdr_records.toNat 0 0
            (pyReadSize f6 ts2.2).2) (fun dres =>
        Except.bind (scanRecords (fun rs bd => decodeSDFVectorHdr rs fh.sdf_revision bd) 13
            .shouldBeVectorHdr fh.offset_vector_record fh.num_vector_hdr_records.toNat 0 0
            dres.2) (fun vres =>
        Except.bind (scanRecords (fun rs bd => decodeSDFChannelHdr rs fh.sdf_revision bd) 14
            .shouldBeChannelHdr fh.offset_channel_record fh.num_channel_hdr_records.toNat 0 0
            vres.2) (fun cres =>
        Except.bind (scanRecords (fun rs bd => decodeSDFScanStruct rs fh.sdf_revision bd) 15
            .shouldBeScanStruct fh.offset_scan_struct_record fh.num_scan_struct_records.toNat 0 0
            cres.2) (fun sres =>
        .ok (⟨true, fh, mh, dres.1, vres.1, cres.1, sres.1.getLast?⟩, sres.2)))))))
      else .error (.systemExit .expectedMeasurementHeader))))
    else .error (.systemExit .expectedFileHeader))
  else .error (.systemExit (.invalidFileIdentifier (pyRead f0 2).1))

/-- `read_sdf_file`: header assembly, then — only when the file header's
y-data offset is non-negative — the y-data extraction.  When the y-data
offset is negative the extraction is skipped, so the final
`return sdf_hdr, sdf_data` references the never-assigned local `sdf_data`
and raises `UnboundLocalError`. -/
def readSDFFile (PM : PowModel) (data : List Nat) : Except PyErr (SDFHdr × List Sample) :=
  Except.bind (readHeaders data) (fun gf =>
  if gf.1.file_hdr.offset_ydata_record ≥ 0 then
    Except.bind (extractYData PM gf.1 gf.2) (fun d => .ok (gf.1, d))
  else .error .unboundLocal)

/-- Big-endian two's-complement encoding of a short (test-input builder). -/
def i16be (x : Int) : List Nat :=
  [(Int.emod x 65536).toNat / 256, (Int.emod x 65536).toNat % 256]

/-- Big-endian two's-complement encoding of a long (test-input builder). -/
def i32be (x : Int) : List Nat :=
  [(Int.emod x 4294967296).toNat / 16777216,
   (Int.emod x 4294967296).toNat / 65536 % 256,
   (Int.emod x 4294967296).toNat / 256 % 256,
   (Int.emod x 4294967296).toNat % 256]

/-- A run of zero bytes (test-input builder). -/
def zeros (n : Nat) : List Nat := List.replicate n 0

/-- A well-formed 64-byte file header record (type 10): given revision and
application code, measurement start 1990-01-01 00:00, given record counts
and table offsets. -/
def mkFileHdrRec (rev app n1 n2 n3 n4 n5 n6 o1 o2 o3 o4 o5 o6 o7 : Int) : List Nat :=
  i16be 10 ++ i32be 64 ++ i16be rev ++ i16be app ++
  i16be 1990 ++ i16be 101 ++ i16be 0 ++ zeros 8 ++
  i16be n1 ++ i16be n2 ++ i16be n3 ++ i16be n4 ++ i16be n5 ++ i16be n6 ++
  i32be o1 ++ i32be o2 ++ i32be o3 ++ i32be o4 ++ i32be o5 ++ i32be o6 ++ i32be o7

/-- A well-formed 140-byte measurement header record (type 11) with the
given revision-2 start/stop frequency indices and all enumeration codes
zero. -/
def mkMeasHdrRec (start stop : Int) : List Nat :=
  i16be 11 ++ i32be 140 ++ i32be 0 ++ zeros 8 ++ i32be 0 ++ i16be 0 ++
  i16be start ++ i16be stop ++ i16be 0 ++ i32be 0 ++ zeros 4 ++ zeros 60 ++
  zeros 4 ++ zeros 24 ++ i16be 0 ++ i16be 0 ++ i16be 0 ++ zeros 8

/-- A well-formed 134-byte revision-2 data header record (type 12) with the
given sample count, last valid index, first vector record number and domain
code; y-data is real (`y_is_complex` false). -/
def mkDataHdrRec (npts lvi fv dom : Int) : List Nat :=
  i16be 12 ++ i32be 134 ++ i32be 0 ++ zeros 16 ++ i16be dom ++ i16be 0 ++
  i16be npts ++ i16be lvi ++ zeros 8 ++ i16be 0 ++ i16be 1 ++ i16be 1 ++
  i16be 1 ++ i16be 1 ++ i16be 0 ++ i16be 0 ++ i16be 0 ++ i16be 0 ++
  i32be fv ++ i16be 0 ++ i16be 0 ++ zeros 22 ++ i16be 0 ++ zeros 22 ++
  zeros 16 ++ i16be 0 ++ i16be 0

/-- A well-formed 18-byte vector header record (type 13) with the given
channel indices and power codes. -/
def mkVectorHdrRec (c1 c2 p1 p2 : Int) : List Nat :=
  i16be 13 ++ i32be 18 ++ i32be 0 ++ i16be c1 ++ i16be c2 ++ i16be p1 ++ i16be p2

/-- A y-data record (type 17) followed by the given raw sample bytes. -/
def mkYDataRec (samples : List Nat) : List Nat :=
  i16be 17 ++ i32be (6 + samples.length) ++ samples

/-- A complete well-formed revision-2 SDF file: one data header
(num_points 1), one vector header (both channel indices `-1`), no channel
headers, y-data of one zero float sample, start/stop frequency indices
0/0.  Record layout: file header at 2, measurement header at 66, data
header at 206, vector header at 340, y-data at 358. -/
def goodFile : List Nat :=
  [66, 0] ++ mkFileHdrRec 2 2 1 1 0 0 0 (-1) 206 340 (-1) (-1) (-1) (-1) 358 ++
  mkMeasHdrRec 0 0 ++ mkDataHdrRec 1 0 0 0 ++ mkVectorHdrRec (-1) (-1) 0 0 ++
  mkYDataRec (zeros 4)

/-- Like `goodFile` but the data header declares `num_points = 2` while only
one 4-byte sample remains in the file, and `stop_freq_index = 1`. -/
def truncFile : List Nat :=
  [66, 0] ++ mkFileHdrRec 2 2 1 1 0 0 0 (-1) 206 340 (-1) (-1) (-1) (-1) 358 ++
  mkMeasHdrRec 0 1 ++ mkDataHdrRec 2 0 0 0 ++ mkVectorHdrRec (-1) (-1) 0 0 ++
  mkYDataRec (zeros 4)

/-- Like `goodFile` but `stop_freq_index = 5` while the decoded vector has a
single sample, so the final slice `[0:6]` is clamped. -/
def sliceFile : List Nat :=
  [66, 0] ++ mkFileHdrRec 2 2 1 1 0 0 0 (-1) 206 340 (-1) (-1) (-1) (-1) 358 ++
  mkMeasHdrRec 0 5 ++ mkDataHdrRec 1 0 0 0 ++ mkVectorHdrRec (-1) (-1) 0 0 ++
  mkYDataRec (zeros 4)

/-- A well-formed revision-2 SDF file whose file header records a negative
y-data offset (y-data absent) and no data/vector/channel/scan records. -/
def noYFile : List Nat :=
  [66, 0] ++ mkFileHdrRec 2 2 0 0 0 0 0 (-1) (-1) (-1) (-1) (-1) (-1) (-1) (-1) ++
  mkMeasHdrRec 0 0

/-- A concrete interpretation of the abstracted float operations, used only
to instantiate universally quantified theorems on concrete inputs. -/
def PM0 : PowModel := ⟨fun a b => 2 * a + 3 * b, fun s => (5 * s.1, 7 * s.2)⟩

/-- Extract the success value of a decode, with a fallback (used only to
name concrete decode results in closed statements). -/
def okOr {α : Type} (x : Except PyErr α) (d : α) : α :=
  match x with
  | .ok a => a
  | .error _ => d

/-- A zero physical-unit descriptor (concrete-input builder). -/
def testUnit : SDFUnit := ⟨"", 0, 0, 0, 0, 0, 0, 0, 0, 0⟩

/-- A window whose narrow-band correction factor is 3 (concrete-input
builder). -/
def testWindow : SDFWindow :=
  ⟨"Hanning", "Narrow band correction applied", 0, 0, 0, 0, 3⟩

/-- A channel header with `int_2_eng_unit = 2` and `testWindow` as window
(concrete-input builder). -/
def testChannel : SDFChannelHdr :=
  { record_size := 212
    offset_unique_record := -1
    channel_label := ""
    module_id := ""
    serial_number := ""
    window := testWindow
    weight := "No weighting"
    delay := 0
    range := 0
    direction := "No direction specified"
    point_num := 0
    coupling := "DC"
    overloaded := false
    int_label := ""
    eng_unit := testUnit
    int_2_eng_unit := 2
    input_impedance := 0
    channel_attribute := "No attribute"
    alias_protected := false
    digital_channel := false
    channel_scale := 0
    channel_offset := 0
    gate_begin := 0
    gate_end := 0
    user_delay := 0 }

/-- A revision-2 file header with the y-data record at offset 0 of the
handle passed to the extraction step (concrete-input builder). -/
def testFileHdr : SDFFileHdr :=
  { record_size := 64
    sdf_revision := 2
    application := "HP 35665A"
    measurement_start_datetime := ⟨1990, 1, 1, 0, 0⟩
    application_version := ""
    num_data_hdr_records := 1
    num_vector_hdr_records := 1
    num_channel_hdr_records := 0
    num_unique_records := 0
    num_scan_struct_records := 0
    num_xdata_records := 0
    offset_data_hdr_record := 206
    offset_vector_record := 340
    offset_channel_record := -1
    offset_unique_record := -1
    offset_scan_struct_record := -1
    offset_xdata_record := -1
    offset_ydata_record := 0 }

/-- Measurement-header base fields (concrete-input builder). -/
def testMeasBase : SDFMeasHdrBase :=
  { record_size := 140
    offset_unique_record := 0
    block_size := 0
    zoom_mode_on := false
    average_type := "None"
    average_num := 0
    pct_overlap := 0
    meas_title := ""
    video_bw := 0
    center_freq := 0
    span_freq := 0
    sweep_freq := 0
    meas_type := "Spectrum measurement"
    real_time := "Not continuous"
    detection := "Sample detection"
    sweep_time := 0 }

/-- Data-header base fields with the given first-vector reference
(concrete-input builder; time domain, real y-data). -/
def testDataBase (fv : Int) : SDFDataHdrBase :=
  { record_size := 134
    offset_unique_record := 0
    data_title := ""
    domain := "Time domain"
    data_type := "Time"
    x_resolution_type := "Linear"
    x_data_type := "short"
    x_per_point := 1
    y_data_type := "short"
    y_per_point := 1
    y_is_complex := false
    y_is_normalized := false
    y_is_power_data := false
    y_is_valid := false
    first_vector_record_num := fv
    total_rows := 0
    total_cols := 0
    xunit := testUnit
    y_unit_valid := false
    yunit := testUnit }

/-- A revision-2 data header (concrete-input builder). -/
def testDataHdr (fv np : Int) : SDFDataHdr :=
  ⟨testDataBase fv, some np, some 0, some 0, some 0, some false, some false⟩

/-- A vector header (concrete-input builder). -/
def testVector (c1 c2 p1 p2 : Int) : SDFVectorHdr := ⟨18, 0, (c1, c2), (p1, p2)⟩

/-- An assembled header graph (concrete-input builder): one data header
referencing vector `fv` with `num_points = np`, the given vector and
channel header lists, slice indices `s`/`e`. -/
def testGraph (fv np s e : Int) (vhs : List SDFVectorHdr) (chs : List SDFChannelHdr) : SDFHdr :=
  ⟨true, testFileHdr, ⟨testMeasBase, some s, some e⟩, [testDataHdr fv np], vhs, chs, none⟩

/-- A file handle holding exactly one y-data record (type 17) with one zero
4-byte sample, positioned at offset 0 (concrete-input builder). -/
def testYFile : PyFile := ⟨i16be 17 ++ i32be 10 ++ zeros 4, 0⟩

/-- The header graph of the C7 counterexample: `data_hdr[0]` references
vector record `-1`; the vector list holds a first vector whose channel
references (5, 5) could never be resolved (the channel list is empty) and a
last vector with the `-1` no-channel sentinels. -/
def negIndexGraph : SDFHdr :=
  testGraph (-1) 1 0 0 [testVector 5 5 48 48, testVector (-1) (-1) 0 0] []

/-- A header graph whose single vector header is referenced in bounds and
uses the no-channel sentinels (witness input). -/
def inBoundsGraph : SDFHdr :=
  testGraph 0 1 0 0 [testVector (-1) (-1) 0 0] []

/-- A header graph whose data header references vector record 5 while only
one vector header exists (out-of-range positive index). -/
def badRefGraph : SDFHdr :=
  testGraph 5 1 0 0 [testVector (-1) (-1) 0 0] []

instance {e a : Type} [DecidableEq e] [DecidableEq a] : DecidableEq (Except e a) := fun x y =>
  match x, y with
  | .ok u, .ok v => if h : u = v then .isTrue (by rw [h]) else .isFalse (by simp [h])
  | .error u, .error v => if h : u = v then .isTrue (by rw [h]) else .isFalse (by simp [h])
  | .ok _, .error _ => .isFalse (by simp)
  | .error _, .ok _ => .isFalse (by simp)


theorem exceptBind_ok {α β : Type} {x : Except PyErr α} {f : α → Except PyErr β} {b : β}
    (h : Except.bind x f = .ok b) : ∃ a, x = .ok a ∧ f a = .ok b := by
  cases x with
  | error e => simp [Except.bind] at h
  | ok a => exact ⟨a, rfl, h⟩

theorem getOpt_ok {α : Type} {o : Option α} {a : α} (h : getOpt o = .ok a) : o = some a := by
  cases o with
  | none => simp [getOpt] at h
  | some b => simp [getOpt] at h; rw [h]

theorem pyIndex_ok_mem {α : Type} {l : List α} {i : Int} {a : α}
    (h : pyIndex l i = .ok a) : a ∈ l := by
  unfold pyIndex at h
  split at h
  · split at h
    · exact absurd h (by simp)
    · split at h
      next b hb => cases h; exact List.get?_mem hb
      next => exact absurd h (by simp)
  · split at h
    next b hb => cases h; exact List.get?_mem hb
    next => exact absurd h (by simp)

theorem pyIndex_error_of_out_of_range {α : Type} {l : List α} {i : Int}
    (h : (l.length : Int) ≤ i ∨ i < -(l.length : Int)) :
    pyIndex l i = .error .indexError := by
  unfold pyIndex
  rcases h with h | h
  · rw [if_neg (by omega)]
    have : l.get? i.toNat = none := by
      rw [List.get?_eq_none]
      omega
    rw [this]
  · rw [if_pos (by omega), if_pos (by omega)]

theorem pyIndex_ok_iff {α : Type} {l : List α} {i : Int} {a : α} :
    pyIndex l i = .ok a ↔
      ((0 ≤ i ∧ l.get? i.toNat = some a) ∨
       (i < 0 ∧ -(l.length : Int) ≤ i ∧ l.get? (i + l.length).toNat = some a)) := by
  unfold pyIndex
  constructor
  · intro h
    split at h
    · split at h
      · exact absurd h (by simp)
      · split at h
        next b hb => cases h; right; exact ⟨by omega, by omega, hb⟩
        next => exact absurd h (by simp)
    · split at h
      next b hb => cases h; left; exact ⟨by omega, hb⟩
      next => exact absurd h (by simp)
  · intro h
    rcases h with ⟨h0, hg⟩ | ⟨h0, h1, hg⟩
    · rw [if_neg (by omega), hg]
    · rw [if_pos h0, if_neg (by omega), hg]

theorem lookup_mem {α : Type} {tbl : List (Int × α)} {code : Int} {v : α}
    (h : tbl.lookup code = some v) : (code, v) ∈ tbl := by
  induction tbl with
  | nil => simp [List.lookup] at h
  | cons hd tl ih =>
    rw [List.lookup] at h
    by_cases hc : code = hd.1
    · rw [show (code == hd.1) = true from beq_iff_eq.mpr hc] at h
      simp at h
      subst hc
      simp [← h]
    · rw [show (code == hd.1) = false from beq_eq_false_iff_ne.mpr hc] at h
      exact List.mem_cons_of_mem _ (ih h)

theorem scanRecords_mem {α : Type} (P : α → Prop) (dec : Int → List Nat → Except PyErr α)
    (etype : Int) (emsg : SysMsg) (off : Int)
    (hdec : ∀ rs bd h, dec rs bd = .ok h → P h) :
    ∀ (count i : Nat) (stride : Int) (f : PyFile) (out : List α × PyFile),
      scanRecords dec etype emsg off count i stride f = .ok out → ∀ h ∈ out.1, P h := by
  intro count
  induction count with
  | zero =>
    intro i stride f out h x hx
    rw [scanRecords] at h
    cases h
    simp at hx
  | succ k ih =>
    intro i stride f out h x hx
    rw [scanRecords] at h
    obtain ⟨f1, _, h⟩ := exceptBind_ok h
    obtain ⟨ts, _, h⟩ := exceptBind_ok h
    split at h
    · obtain ⟨f2, _, h⟩ := exceptBind_ok h
      obtain ⟨r, hr, h⟩ := exceptBind_ok h
      obtain ⟨rest, hrest, h⟩ := exceptBind_ok h
      cases h
      simp at hx
      rcases hx with hx | hx
      · rw [hx]; exact hdec _ _ _ hr
      · exact ih _ _ _ _ hrest x hx
    · exact absurd h (by simp)

theorem dataRevDispatch_num_points {rev : Int} {bd : List Nat} {b : SDFDataHdrBase}
    {d : SDFDataHdr} (h : dataRevDispatch rev bd b = .ok d)
    (hs : d.num_points.isSome) : rev = 2 := by
  unfold dataRevDispatch at h
  split_ifs at h with h1 h2 h3
  · obtain ⟨ax, _, h⟩ := exceptBind_ok h
    obtain ⟨dx, _, h⟩ := exceptBind_ok h
    cases h
    simp at hs
  · exact h2

theorem decodeSDFDataHdr_num_points {rs rev : Int} {bd : List Nat} {d : SDFDataHdr}
    (h : decodeSDFDataHdr rs rev bd = .ok d) (hs : d.num_points.isSome) : rev = 2 := by
  unfold decodeSDFDataHdr at h
  obtain ⟨b, _, h⟩ := exceptBind_ok h
  exact dataRevDispatch_num_points h hs

theorem calibratedYVector_ok_inv {PM : PowModel} {g : SDFHdr} {f : PyFile} {c : List Sample}
    (h : calibratedYVector PM g f = .ok c) :
    ∃ dh vh, pyIndex g.data_hdr 0 = .ok dh ∧
      pyIndex g.vector_hdr dh.base.first_vector_record_num = .ok vh ∧
      dh.num_points.isSome := by
  unfold calibratedYVector at h
  obtain ⟨f1, _, h⟩ := exceptBind_ok h
  obtain ⟨ts, _, h⟩ := exceptBind_ok h
  split at h
  · obtain ⟨dh, hdh, h⟩ := exceptBind_ok h
    obtain ⟨vh, hvh, h⟩ := exceptBind_ok h
    obtain ⟨tr, _, h⟩ := exceptBind_ok h
    obtain ⟨n, hn, h⟩ := exceptBind_ok h
    exact ⟨dh, vh, hdh, hvh, by rw [getOpt_ok hn]; rfl⟩
  · exact absurd h (by simp)

theorem readHeaders_data_hdr_rev {data : List Nat} {p : SDFHdr × PyFile}
    (h : readHeaders data = .ok p) :
    ∀ dh ∈ p.1.data_hdr, dh.num_points.isSome → p.1.file_hdr.sdf_revision = 2 := by
  simp only [readHeaders] at h
  split at h
  · obtain ⟨ts, _, h⟩ := exceptBind_ok h
    split at h
    · obtain ⟨f3, _, h⟩ := exceptBind_ok h
      obtain ⟨fh, _, h⟩ := exceptBind_ok h
      obtain ⟨ts2, _, h⟩ := exceptBind_ok h
      split at h
      · obtain ⟨f6, _, h⟩ := exceptBind_ok h
        obtain ⟨mh, _, h⟩ := exceptBind_ok h
        obtain ⟨dres, hdres, h⟩ := exceptBind_ok h
        obtain ⟨vres, _, h⟩ := exceptBind_ok h
        obtain ⟨cres, _, h⟩ := exceptBind_ok h
        obtain ⟨sres, _, h⟩ := exceptBind_ok h
        cases h
        intro dh hmem hsome
        exact scanRecords_mem
          (fun d => d.num_points.isSome → fh.sdf_revision = 2)
          (fun rs bd => decodeSDFDataHdr rs fh.sdf_revision bd) 12 .shouldBeDataHdr
          fh.offset_data_hdr_record
          (fun rs bd d hd hs => decodeSDFDataHdr_num_points hd hs)
          _ _ _ _ _ hdres dh hmem hsome
      · exact absurd h (by simp)
    · exact absurd h (by simp)
  · exact absurd h (by simp)

theorem readSDFFile_ok_rev2 {PM : PowModel} {data : List Nat} {out : SDFHdr × List Sample}
    (h : readSDFFile PM data = .ok out) :
    out.1.file_hdr.sdf_revision = 2 ∧ 0 ≤ out.1.file_hdr.offset_ydata_record := by
  unfold readSDFFile at h
  obtain ⟨gf, hgf, h⟩ := exceptBind_ok h
  split at h
  next hge =>
    obtain ⟨d, hd, h⟩ := exceptBind_ok h
    cases h
    unfold extractYData at hd
    obtain ⟨c, hc, hd⟩ := exceptBind_ok hd
    obtain ⟨dh, vh, hdh, hvh, hsome⟩ := calibratedYVector_ok_inv hc
    exact ⟨readHeaders_data_hdr_rev hgf dh (pyIndex_ok_mem hdh) hsome, hge⟩
  · exact absurd h (by simp)

theorem decodeSDFFileHdr_ok_rev {rs : Int} {bd : List Nat} {h : SDFFileHdr}
    (hok : decodeSDFFileHdr rs bd = .ok h) :
    h.sdf_revision = 1 ∨ h.sdf_revision = 2 ∨ h.sdf_revision = 3 := by
  unfold decodeSDFFileHdr at hok
  obtain ⟨b, hb, hok⟩ := exceptBind_ok hok
  split at hok
  next hc => cases hok; exact hc
  next => exact absurd hok (by simp)

theorem decodeSDFMeasHdr_bad_rev {rs rev : Int} {bd : List Nat}
    (hrev : ¬(rev = 1 ∨ rev = 2 ∨ rev = 3)) (x : SDFMeasHdr) :
    decodeSDFMeasHdr rs rev bd ≠ .ok x := by
  intro hok
  unfold decodeSDFMeasHdr at hok
  obtain ⟨b, hb, hok⟩ := exceptBind_ok hok
  unfold measRevDispatch at hok
  rw [if_neg (fun h1 => hrev (Or.inl h1)),
      if_neg (fun h2 => hrev (Or.inr (Or.inl h2))),
      if_neg (fun h3 => hrev (Or.inr (Or.inr h3)))] at hok
  exact absurd hok (by simp)

theorem decodeSDFDataHdr_bad_rev {rs rev : Int} {bd : List Nat}
    (hrev : ¬(rev = 1 ∨ rev = 2 ∨ rev = 3)) (x : SDFDataHdr) :
    decodeSDFDataHdr rs rev bd ≠ .ok x := by
  intro hok
  unfold decodeSDFDataHdr at hok
  obtain ⟨b, hb, hok⟩ := exceptBind_ok hok
  unfold dataRevDispatch at hok
  rw [if_neg (fun h1 => hrev (Or.inl h1)),
      if_neg (fun h2 => hrev (Or.inr (Or.inl h2))),
      if_neg (fun h3 => hrev (Or.inr (Or.inr h3)))] at hok
  exact absurd hok (by simp)

theorem pySliceList_in_range {α : Type} (l : List α) (a b : Int)
    (ha : 0 ≤ a) (hab : a ≤ b) (hb : b ≤ (l.length : Int)) :
    pySliceList l a b = (l.drop a.toNat).take (b.toNat - a.toNat) ∧
      (pySliceList l a b).length = (b - a).toNat := by
  have hba : pyBound a l.length = a.toNat := by
    unfold pyBound
    rw [if_neg (by omega)]
    omega
  have hbb : pyBound b l.length = b.toNat := by
    unfold pyBound
    rw [if_neg (by omega)]
    omega
  unfold pySliceList
  rw [hba, hbb]
  refine ⟨rfl, ?_⟩
  rw [List.length_take, List.length_drop]
  omega

theorem pySliceList_get {α : Type} (l : List α) (a b : Int) (i : Nat)
    (ha : 0 ≤ a) (hab : a ≤ b) (hb : b ≤ (l.length : Int)) (hi : i < (b - a).toNat) :
    (pySliceList l a b)[i]? = l[a.toNat + i]? := by
  obtain ⟨he, _⟩ := pySliceList_in_range l a b ha hab hb
  rw [he, List.getElem?_take_of_lt (by omega), List.getElem?_drop]

theorem applicationTable_hp35670a (code : Int) :
    applicationTable.lookup code = some "HP 35670A" ↔ code = 10 := by
  constructor
  · intro h
    have hm := lookup_mem h
    simp only [applicationTable, List.mem_cons, List.not_mem_nil, or_false,
      Prod.mk.injEq, String.reduceEq, and_false, false_or] at hm
    exact hm.1
  · intro h
    rw [h]
    rfl

theorem extractYData_bad_vector_index {PM : PowModel} {g : SDFHdr} {f : PyFile}
    {dh : SDFDataHdr} (hdh : pyIndex g.data_hdr 0 = .ok dh)
    (hbad : (g.vector_hdr.length : Int) ≤ dh.base.first_vector_record_num ∨
      dh.base.first_vector_record_num < -(g.vector_hdr.length : Int)) :
    ∀ v, extractYData PM g f ≠ .ok v := by
  intro v hok
  unfold extractYData at hok
  obtain ⟨c, hc, _⟩ := exceptBind_ok hok
  obtain ⟨dh', vh, hdh', hvh, _⟩ := calibratedYVector_ok_inv hc
  rw [hdh] at hdh'
  cases hdh'
  rw [pyIndex_error_of_out_of_range hbad] at hvh
  exact absurd hvh (by simp)

/-- C1: In the calibration step, for each channel role (response, exciter)
of the vector header referenced by the first data header: a channel index
of `-1` gives a correction factor of exactly `1` for any channel list (no
lookup); otherwise, with `ch` the channel the lookup resolves, the factor
is `(window_correction / ch.int_2_eng_unit) ** (channel_power_48x / 48)`
where `window_correction` is `ch`'s window narrow-band correction exactly
when the data header's domain is `Frequency domain` or `Channel` and `1.0`
otherwise; the trace correction is the product of the response and exciter
factors, and it is applied to every sample of the vector. -/
theorem C1_trace_correction_factors (PM : PowModel) (domain : String)
    (channels : List SDFChannelHdr) (chId pwr : Int) (vh : SDFVectorHdr) :
    (chId = -1 → channelCorrFactor PM domain channels chId pwr = .ok 1) ∧
    (∀ ch, pyIndex channels chId = .ok ch → chId ≠ -1 → ch.int_2_eng_unit ≠ 0 →
      channelCorrFactor PM domain channels chId pwr =
        .ok (PM.pow
          ((if domain = "Frequency domain" ∨ domain = "Channel" then
              ch.window.narrow_band_corr else 1) / ch.int_2_eng_unit)
          ((pwr : ℚ) / 48))) ∧
    (∀ r e, channelCorrFactor PM domain channels vh.channel_record.1 vh.channel_power_48x.1 = .ok r →
      channelCorrFactor PM domain channels vh.channel_record.2 vh.channel_power_48x.2 = .ok e →
      traceCorrFactor PM domain channels vh = .ok (r * e)) ∧
    (∀ (t : ℚ) (l : List Sample) (i : Nat),
      (l.map (scaleSample t))[i]? = (l[i]?).map (scaleSample t)) := by
  refine ⟨?_, ?_, ?_, ?_⟩
  · intro h
    unfold channelCorrFactor
    rw [if_pos h]
  · intro ch hch hne heu
    unfold channelCorrFactor
    rw [if_neg hne, hch]
    simp [Except.bind, heu]
  · intro r e hr he
    unfold traceCorrFactor
    rw [hr, he]
    simp [Except.bind]
  · intro t l i
    exact List.getElem?_map (scaleSample t) l i

/-- Witness for C1 on concrete inputs: the sentinel `-1` role on an empty
channel list, a looked-up channel with unit 2 and narrow-band correction 3
in a non-frequency domain, and a trace correction for a vector header with
both sentinels. -/
theorem C1_trace_correction_factors_witness :
    channelCorrFactor PM0 "Time domain" ([] : List SDFChannelHdr) (-1) 5 = .ok 1 ∧
    channelCorrFactor PM0 "Time domain" [testChannel] 0 48 =
      .ok (PM0.pow
        ((if ("Time domain" : String) = "Frequency domain" ∨ ("Time domain" : String) = "Channel" then
            testChannel.window.narrow_band_corr else 1) / testChannel.int_2_eng_unit)
        ((48 : ℚ) / 48)) ∧
    traceCorrFactor PM0 "Time domain" [testChannel] (testVector (-1) (-1) 0 0) = .ok (1 * 1) :=
  ⟨(C1_trace_correction_factors PM0 "Time domain" [] (-1) 5 (testVector 0 0 0 0)).1 rfl,
   (C1_trace_correction_factors PM0 "Time domain" [testChannel] 0 48 (testVector 0 0 0 0)).2.1
     testChannel (by rfl) (by decide) (by decide),
   (C1_trace_correction_factors PM0 "Time domain" [testChannel] 0 0
       (testVector (-1) (-1) 0 0)).2.2.1 1 1
     ((C1_trace_correction_factors PM0 "Time domain" [testChannel] (-1) 0
       (testVector 0 0 0 0)).1 rfl)
     ((C1_trace_correction_factors PM0 "Time domain" [testChannel] (-1) 0
       (testVector 0 0 0 0)).1 rfl)⟩

/-- C2 (code bug): on a well-formed revision-2 file whose file header
records y-data offset `-1` (y-data absent), `read_sdf_file` skips the
extraction block, so the final `return sdf_hdr, sdf_data` references the
never-assigned local `sdf_data`: instead of returning the header graph with
an absent sample vector, the call raises `UnboundLocalError`. -/
theorem C2_missing_ydata_unbound_local (PM : PowModel) :
    readSDFFile PM noYFile = .error .unboundLocal ∧
    (readHeaders noYFile).map (fun p => p.1.file_hdr.offset_ydata_record) = .ok (-1) := by
  exact ⟨rfl, rfl⟩

/-- C3 counterexample: a file whose data header declares `num_points = 2`
while only one 4-byte sample remains after the y-data prefix.  The claim
requires a `TruncatedVectorDataError`; the code returns success with the
shorter (1-sample) vector, because `np.fromfile` silently clamps the count
(slice indices are 0..1, so the short read is visible in the output
length). -/
theorem C3_truncated_read_counterexample :
    (readSDFFile PM0 truncFile).map (fun p => p.1.data_hdr.head?.bind (fun dh => dh.num_points)) =
      .ok (some 2) ∧
    (readSDFFile PM0 truncFile).map (fun p => p.2.length) = .ok 1 := by
  exact ⟨rfl, rfl⟩

/-- C3 amended: the y-data read consumes samples of the declared element
type (16-byte big-endian complex pairs when `y_is_complex`, 4-byte
big-endian floats otherwise) from the current position, but reads
`min(num_points, samples remaining)` of them: when fewer than `num_points`
complete samples remain, the shorter vector is returned silently — there is
no truncation error. -/
theorem C3_fromfile_clamped (f : PyFile) (cplx : Bool) (n : Int) (hn : 0 ≤ n) :
    (npFromfile f cplx n).1.length =
      min n.toNat ((f.data.length - f.pos) / itemSize cplx) ∧
    ∀ i : Nat,
      (npFromfile f cplx n).1[i]? =
        if i < min n.toNat ((f.data.length - f.pos) / itemSize cplx) then
          some (decodeSample cplx
            (pySeg f.data (f.pos + i * itemSize cplx)
              (f.pos + i * itemSize cplx + itemSize cplx)))
        else none := by
  unfold npFromfile
  simp only
  rw [if_neg (show ¬(n < 0) by omega)]
  constructor
  · rw [List.length_map, List.length_range]
  · intro i
    rw [List.getElem?_map]
    by_cases hi : i < min n.toNat ((f.data.length - f.pos) / itemSize cplx)
    · rw [List.getElem?_range hi, if_pos hi]
      rfl
    · rw [List.getElem?_eq_none (by rw [List.length_range]; omega), if_neg hi]
      rfl

/-- Witness for the amended C3 on a concrete handle: 9 bytes of real
(4-byte) sample data after position 0 hold exactly 2 complete samples, so a
requested count of 5 returns 2 samples. -/
theorem C3_fromfile_clamped_witness :
    (npFromfile ⟨zeros 9, 0⟩ false 5).1.length = min (5 : Int).toNat ((9 - 0) / itemSize false) :=
  (C3_fromfile_clamped ⟨zeros 9, 0⟩ false 5 (by decide)).1

/-- C4 counterexample: `_decode_sdf_vector_hdr` called with revision 4 (not
one of 1, 2, 3) on a well-formed 18-byte record succeeds instead of failing
with the unsupported-revision error — the vector-header decoder never
examines its revision argument. -/
theorem C4_vector_hdr_ignores_revision_counterexample :
    decodeSDFVectorHdr 18 4 (mkVectorHdrRec (-1) (-1) 0 0) = .ok ⟨18, 0, (-1, -1), (0, 0)⟩ := by
  rfl

/-- C4 amended: only the file-header, measurement-header and data-header
decoders reject unrecognized revisions (the file header reads its revision
from the record bytes; the other two abort on a revision argument outside
{1,2,3}); the vector-header, channel-header and scan-struct decoders ignore
the revision argument entirely, so their result is identical for every
revision. -/
theorem C4_revision_checks_amended (rs rev : Int) (bd : List Nat)
    (hrev : ¬(rev = 1 ∨ rev = 2 ∨ rev = 3)) :
    (∀ h, decodeSDFFileHdr rs bd = .ok h →
      h.sdf_revision = 1 ∨ h.sdf_revision = 2 ∨ h.sdf_revision = 3) ∧
    (∀ x, decodeSDFMeasHdr rs rev bd ≠ .ok x) ∧
    (∀ x, decodeSDFDataHdr rs rev bd ≠ .ok x) ∧
    (∀ rev', decodeSDFVectorHdr rs rev bd = decodeSDFVectorHdr rs rev' bd) ∧
    (∀ rev', decodeSDFChannelHdr rs rev bd = decodeSDFChannelHdr rs rev' bd) ∧
    (∀ rev', decodeSDFScanStruct rs rev bd = decodeSDFScanStruct rs rev' bd) :=
  ⟨fun _ hok => decodeSDFFileHdr_ok_rev hok,
   fun _ => decodeSDFMeasHdr_bad_rev hrev _,
   fun _ => decodeSDFDataHdr_bad_rev hrev _,
   fun _ => rfl, fun _ => rfl, fun _ => rfl⟩

/-- Witness for the amended C4: the vector-header decoder yields the same
result for revisions 4 and 7 on a concrete record. -/
theorem C4_revision_checks_amended_witness :
    decodeSDFVectorHdr 18 4 (mkVectorHdrRec (-1) (-1) 0 0) =
      decodeSDFVectorHdr 18 7 (mkVectorHdrRec (-1) (-1) 0 0) :=
  (C4_revision_checks_amended 18 4 (mkVectorHdrRec (-1) (-1) 0 0) (by decide)).2.2.2.1 7

/-- C5 (code bug): `_decode_sdf_data_hdr` with revision 3 on a well-formed
record decodes every base field, takes the empty revision-3 branch without
assigning `temp_data_hdr`, and then raises `UnboundLocalError` at the
return — instead of succeeding with the base field set as the spec states.
Revisions 1 and 2 on the same record succeed. -/
theorem C5_data_hdr_rev3_unbound_local :
    decodeSDFDataHdr 134 3 (mkDataHdrRec 1 0 0 0) = .error .unboundLocal ∧
    (decodeSDFDataHdr 134 2 (mkDataHdrRec 1 0 0 0)).isOk = true ∧
    (decodeSDFDataHdr 134 1 (mkDataHdrRec 1 0 0 0)).isOk = true ∧
    (decodeSDFFileHdr 64 (mkFileHdrRec 3 2 0 0 0 0 0 (-1) (-1) (-1) (-1) (-1) (-1) (-1) (-1))).isOk = true ∧
    (decodeSDFMeasHdr 140 3 (mkMeasHdrRec 0 0)).isOk = true ∧
    (decodeSDFVectorHdr 18 3 (mkVectorHdrRec (-1) (-1) 0 0)).isOk = true ∧
    (decodeSDFChannelHdr 192 3 (zeros 192)).isOk = true ∧
    (decodeSDFScanStruct 36 3 (zeros 12 ++ i16be 1 ++ zeros 22)).isOk = true := by
  exact ⟨rfl, rfl, rfl, rfl, rfl, rfl, rfl, rfl⟩

/-- C6 counterexample: a decode that reaches the final slice step with
`start_freq_index = 0`, `stop_freq_index = 5` but only 1 calibrated sample:
the claim requires a returned length of `5 - 0 + 1 = 6`, but Python slice
clamping returns the 1-sample vector. -/
theorem C6_slice_length_counterexample :
    (readSDFFile PM0 sliceFile).map (fun p => p.1.meas_hdr.start_freq_index) = .ok (some 0) ∧
    (readSDFFile PM0 sliceFile).map (fun p => p.1.meas_hdr.stop_freq_index) = .ok (some 5) ∧
    (readSDFFile PM0 sliceFile).map (fun p => p.2.length) = .ok 1 ∧
    (1 : Nat) ≠ 5 - 0 + 1 := by
  exact ⟨rfl, rfl, rfl, by decide⟩

/-- C6 amended: the returned vector is the Python slice
`[start_freq_index : stop_freq_index + 1]` of the calibrated vector; when
`0 ≤ start ≤ stop + 1 ≤ length` the slice consists of exactly the samples
at indices `start .. stop` inclusive and has length
`stop_freq_index - start_freq_index + 1`; outside that range Python
clamping (or negative-index wrapping) applies instead. -/
theorem C6_slice_amended (PM : PowModel) (g : SDFHdr) (f : PyFile) (c : List Sample)
    (s e : Int) (hc : calibratedYVector PM g f = .ok c)
    (hs : g.meas_hdr.start_freq_index = some s)
    (he : g.meas_hdr.stop_freq_index = some e) :
    extractYData PM g f = .ok (pySliceList c s (e + 1)) ∧
    (0 ≤ s → s ≤ e + 1 → e + 1 ≤ (c.length : Int) →
      (pySliceList c s (e + 1)).length = (e + 1 - s).toNat ∧
      ∀ i : Nat, i < (e + 1 - s).toNat → (pySliceList c s (e + 1))[i]? = getElem? c (s.toNat + i)) := by
  constructor
  · unfold extractYData
    rw [hc, hs, he]
    rfl
  · intro h0 h1 h2
    refine ⟨(pySliceList_in_range c s (e + 1) h0 h1 h2).2, ?_⟩
    intro i hi
    exact pySliceList_get c s (e + 1) i h0 h1 h2 (by omega)

/-- Witness for the amended C6 on a concrete in-range instance: graph with
start 0, stop 0 and a 1-sample calibrated vector. -/
theorem C6_slice_amended_witness :
    extractYData PM0 inBoundsGraph testYFile =
      .ok (pySliceList (okOr (calibratedYVector PM0 inBoundsGraph testYFile) []) 0 (0 + 1)) ∧
    (0 ≤ (0 : Int) → (0 : Int) ≤ 0 + 1 →
      0 + 1 ≤ ((okOr (calibratedYVector PM0 inBoundsGraph testYFile) []).length : Int) →
      (pySliceList (okOr (calibratedYVector PM0 inBoundsGraph testYFile) []) 0 (0 + 1)).length =
        ((0 : Int) + 1 - 0).toNat ∧
      ∀ i : Nat, i < ((0 : Int) + 1 - 0).toNat →
        (pySliceList (okOr (calibratedYVector PM0 inBoundsGraph testYFile) []) 0 (0 + 1))[i]? =
          getElem? (okOr (calibratedYVector PM0 inBoundsGraph testYFile) []) ((0 : Int).toNat + i)) :=
  C6_slice_amended PM0 inBoundsGraph testYFile
    (okOr (calibratedYVector PM0 inBoundsGraph testYFile) []) 0 0 (by rfl) (by rfl) (by rfl)

/-- C7 counterexample: `data_hdr[0]` references vector record `-1` (not a
valid position, and not a channel sentinel) in a 2-element vector list; the
claim requires an index error, but the decode silently resolves the *last*
vector header (Python negative indexing) and succeeds. -/
theorem C7_negative_index_counterexample :
    negIndexGraph.data_hdr.head?.map (fun dh => dh.base.first_vector_record_num) = some (-1) ∧
    negIndexGraph.vector_hdr.length = 2 ∧
    pyIndex negIndexGraph.vector_hdr (-1) = .ok (testVector (-1) (-1) 0 0) ∧
    (extractYData PM0 negIndexGraph testYFile).map (fun l => l.length) = .ok 1 := by
  exact ⟨rfl, rfl, rfl, rfl⟩

/-- C7 amended: every cross-record lookup (`data_hdr[0]`, the vector-header
reference, the channel references) is a Python list subscript: an index
outside `[-len, len)` raises `IndexError` (and an out-of-range
`first_vector_record_num` therefore aborts the extraction), but a negative
index within `[-len, -1]` silently resolves to an element counted from the
end of the collection — only `-1` for a *channel* index is treated as a
sentinel before the lookup. -/
theorem C7_index_lookup_amended :
    (∀ {α : Type} (l : List α) (i : Int),
      ((l.length : Int) ≤ i ∨ i < -(l.length : Int)) → pyIndex l i = .error .indexError) ∧
    (∀ {α : Type} (l : List α) (i : Int) (a : α),
      pyIndex l i = .ok a ↔
        ((0 ≤ i ∧ l.get? i.toNat = some a) ∨
         (i < 0 ∧ -(l.length : Int) ≤ i ∧ l.get? (i + l.length).toNat = some a))) ∧
    (∀ (PM : PowModel) (g : SDFHdr) (f : PyFile) (dh : SDFDataHdr),
      pyIndex g.data_hdr 0 = .ok dh →
      ((g.vector_hdr.length : Int) ≤ dh.base.first_vector_record_num ∨
        dh.base.first_vector_record_num < -(g.vector_hdr.length : Int)) →
      ∀ v, extractYData PM g f ≠ .ok v) :=
  ⟨fun l i h => pyIndex_error_of_out_of_range h,
   fun _ _ _ => pyIndex_ok_iff,
   fun _ _ _ _ hdh hbad => extractYData_bad_vector_index hdh hbad⟩

/-- Witness for the amended C7: index 3 into a 1-element list raises
`IndexError`, and a graph whose data header references vector record 5 with
a single vector header cannot extract successfully. -/
theorem C7_index_lookup_amended_witness :
    pyIndex ([testVector 0 0 0 0] : List SDFVectorHdr) 3 = .error .indexError ∧
    extractYData PM0 badRefGraph testYFile ≠ .ok [] :=
  ⟨C7_index_lookup_amended.1 ([testVector 0 0 0 0] : List SDFVectorHdr) 3 (Or.inl (by decide)),
   C7_index_lookup_amended.2.2 PM0 badRefGraph testYFile (testDataHdr 5 1)
     (by rfl) (Or.inl (by decide)) []⟩

/-- C8: the `sqrt(sample)/sqrt(2)` native-unit transform (abstracted as the
model's per-sample `hpStep`) is applied to the calibrated vector exactly
when the decoded source-application string is `HP 35670A`, and `HP 35670A`
is decoded exactly from application code 10 — no other code yields it. -/
theorem C8_hp35670a_gating (app : String) (hp : Sample → Sample) (l : List Sample) :
    (app = "HP 35670A" → applyHPCorrection app hp l = l.map hp) ∧
    (app ≠ "HP 35670A" → applyHPCorrection app hp l = l) ∧
    (∀ code : Int, applicationTable.lookup code = some "HP 35670A" ↔ code = 10) := by
  refine ⟨?_, ?_, applicationTable_hp35670a⟩
  · intro h
    unfold applyHPCorrection
    rw [if_pos h]
  · intro h
    unfold applyHPCorrection
    rw [if_neg h]

/-- Witness for C8: the transform fires for the `HP 35670A` string and
leaves the vector unchanged for another decoded application string. -/
theorem C8_hp35670a_gating_witness :
    applyHPCorrection "HP 35670A" PM0.hpStep [((1 : ℚ), (0 : ℚ))] =
      [((1 : ℚ), (0 : ℚ))].map PM0.hpStep ∧
    applyHPCorrection "HP 35665A" PM0.hpStep [((1 : ℚ), (0 : ℚ))] = [((1 : ℚ), (0 : ℚ))] :=
  ⟨(C8_hp35670a_gating "HP 35670A" PM0.hpStep [((1 : ℚ), (0 : ℚ))]).1 rfl,
   (C8_hp35670a_gating "HP 35665A" PM0.hpStep [((1 : ℚ), (0 : ℚ))]).2.1 (by decide)⟩

/-- C9: a successful `read_sdf_file` decode is only possible for revision-2
files with y-data present: success requires `num_points` (a revision-2-only
data header key) and the start/stop indices, and requires the y-data branch
to have been entered, so any file decoding to revision 1 or 3 with y-data
present fails before returning. -/
theorem C9_success_requires_revision2 (PM : PowModel) (data : List Nat)
    (out : SDFHdr × List Sample) (h : readSDFFile PM data = .ok out) :
    out.1.file_hdr.sdf_revision = 2 ∧ 0 ≤ out.1.file_hdr.offset_ydata_record :=
  readSDFFile_ok_rev2 h

/-- Witness for C9: the concrete well-formed revision-2 file decodes
successfully, and the theorem applied to it yields revision 2. -/
theorem C9_success_requires_revision2_witness :
    (okOr (readSDFFile PM0 goodFile) (inBoundsGraph, [])).1.file_hdr.sdf_revision = 2 ∧
    0 ≤ (okOr (readSDFFile PM0 goodFile) (inBoundsGraph, [])).1.file_hdr.offset_ydata_record :=
  C9_success_requires_revision2 PM0 goodFile
    (okOr (readSDFFile PM0 goodFile) (inBoundsGraph, [])) (by rfl)

/-- C10: for every input whose first two bytes differ from the magic
`b'B\x00'` (bytes 66, 0), `read_sdf_file` fails with the
invalid-identifier exit carrying exactly those two bytes; the result is
fully determined by the first two bytes — no further record is read and no
partial result is returned. -/
theorem C10_invalid_identifier (PM : PowModel) (data : List Nat)
    (h : data.take 2 ≠ [66, 0]) :
    readSDFFile PM data = .error (.systemExit (.invalidFileIdentifier (data.take 2))) := by
  unfold readSDFFile
  simp only [readHeaders]
  rw [show (pyRead ⟨data, 0⟩ 2).1 = data.take 2 from by simp [pyRead]]
  rw [if_neg h]
  rfl

/-- Witness for C10: a 3-byte input starting with bytes 1, 2. -/
theorem C10_invalid_identifier_witness :
    readSDFFile PM0 [1, 2, 3] = .error (.systemExit (.invalidFileIdentifier ([1, 2, 3].take 2))) :=
  C10_invalid_identifier PM0 [1, 2, 3] (by decide)
